import Mathlib

/-!
Shallow embedding of `task_scheduler.py` (classes `Task` and `TaskScheduler`).

Modelling choices:
* timestamps and intervals are rationals (`ℚ`), standing for the Python floats;
* a callable is identified by a `Nat`; its runtime behaviour is an environment
  `beh : Nat → Except String Unit` (`.error e` models the callable raising);
* `time.time()` is passed explicitly as a `now : ℚ` argument; the two calls to
  `time.time()` inside one loop iteration are modelled as the same instant;
* raising `TaskError` at registration is modelled by returning `some msg` as
  the second component (the state component is the unchanged scheduler);
* `start` and `stop` additionally return the trace of thread/flag effects the
  Python body performs, so the presence or absence of a thread join is visible.
-/

namespace TaskSchedulerPy

/-- Embeds class `Task.__init__`: `func`, `run_at`, `interval`;
`is_repeating` is derived below exactly as `interval is not None`. -/
structure Task where
  func : Nat
  run_at : ℚ
  interval : Option ℚ
deriving DecidableEq, Repr

/-- `self.is_repeating = interval is not None` from `Task.__init__`. -/
def Task.is_repeating (t : Task) : Bool := t.interval.isSome

/-- Embeds `Task.run`: calls the function and catches any exception,
logging it; the returned list is the log lines emitted. -/
def Task.run (beh : Nat → Except String Unit) (t : Task) : List String :=
  match beh t.func with
  | Except.ok _ => []
  | Except.error e => ["Error while running task: " ++ e]

/-- Embeds `Task.schedule_next_run`:
`if self.is_repeating: self.run_at = time.time() + self.interval`. -/
def Task.schedule_next_run (t : Task) (now : ℚ) : Task :=
  if t.is_repeating then { t with run_at := now + t.interval.getD 0 } else t

/-- Thread and flag effects performed by `TaskScheduler.start` / `stop`. -/
inductive Effect where
  | setRunning (b : Bool)
  | spawnLoopThread
  | joinLoopThread
  | log (msg : String)
deriving DecidableEq, Repr

/-- Embeds the `TaskScheduler` state: the task list, the `running` flag, and
a count of loop threads launched so far (each `threading.Thread(...).start()`
in `TaskScheduler.start` increments it). -/
structure TaskScheduler where
  tasks : List Task
  running : Bool
  loopThreads : Nat
deriving DecidableEq, Repr

/-- Embeds `TaskScheduler.__init__`: empty list, not running, no loop thread. -/
def TaskScheduler.init : TaskScheduler := ⟨[], false, 0⟩

/-- Embeds `TaskScheduler.schedule_task`: raises (returns `some msg`) when
`run_at <= time.time()`, otherwise appends a one-shot task. -/
def TaskScheduler.schedule_task (s : TaskScheduler) (func : Nat) (run_at now : ℚ) :
    TaskScheduler × Option String :=
  if run_at ≤ now then (s, some "run_at time must be in the future.")
  else ({ s with tasks := s.tasks ++ [⟨func, run_at, none⟩] }, none)

/-- Embeds `TaskScheduler.schedule_repeating_task`: raises when
`interval <= 0`, otherwise appends a repeating task due at `now + interval`. -/
def TaskScheduler.schedule_repeating_task (s : TaskScheduler) (func : Nat)
    (interval now : ℚ) : TaskScheduler × Option String :=
  if interval ≤ 0 then (s, some "Interval must be greater than zero.")
  else ({ s with tasks := s.tasks ++ [⟨func, now + interval, some interval⟩] }, none)

/-- Embeds `TaskScheduler.start`: sets `running = True` and unconditionally
starts a new loop thread (`threading.Thread(target=self._run).start()`). -/
def TaskScheduler.start (s : TaskScheduler) : TaskScheduler × List Effect :=
  ({ s with running := true, loopThreads := s.loopThreads + 1 },
   [Effect.setRunning true, Effect.spawnLoopThread, Effect.log "Task scheduler started"])

/-- Embeds `TaskScheduler.stop`: under the lock sets `running = False` and
logs; the body contains no join of the loop thread. -/
def TaskScheduler.stop (s : TaskScheduler) : TaskScheduler × List Effect :=
  ({ s with running := false },
   [Effect.setRunning false, Effect.log "Task scheduler stopped"])

/-- One pass of the `for task in self.tasks[:]` body of `TaskScheduler._run`:
every due task (`run_at <= now`) is rescheduled if repeating, removed if
one-shot; tasks not yet due are kept unchanged. -/
def runTick (tasks : List Task) (now : ℚ) : List Task :=
  tasks.filterMap (fun t =>
    if t.run_at ≤ now then
      if t.is_repeating then some (t.schedule_next_run now) else none
    else some t)

/-- The tasks whose `run_at <= now`, i.e. those `_run` fires on this tick. -/
def firedTasks (tasks : List Task) (now : ℚ) : List Task :=
  tasks.filter (fun t => decide (t.run_at ≤ now))

/-- One iteration of the `while self.running` loop of `TaskScheduler._run`:
the new state, and the log lines of each fired task's `Task.run` thread. -/
def TaskScheduler.tick (s : TaskScheduler) (now : ℚ)
    (beh : Nat → Except String Unit) : TaskScheduler × List (List String) :=
  ({ s with tasks := runTick s.tasks now },
   (firedTasks s.tasks now).map (Task.run beh))

/-- Embeds `TaskScheduler.list_tasks`: logs one line per task and falls off
the end of the body, so the Python call returns `None` (modelled as the
`Option (List Task)` component being `none`); the state is unchanged. -/
def TaskScheduler.list_tasks (s : TaskScheduler) :
    TaskScheduler × Option (List Task) × List String :=
  (s, none,
   s.tasks.map (fun t =>
     "Task scheduled at " ++ toString t.run_at ++ ", repeating: "
       ++ toString t.is_repeating))

/-- Embeds `TaskScheduler.cancel_task`:
`self.tasks = [task for task in self.tasks if task.func != func]`. -/
def TaskScheduler.cancel_task (s : TaskScheduler) (func : Nat) : TaskScheduler :=
  { s with tasks := s.tasks.filter (fun t => decide (t.func ≠ func)) }

/-- Record update in `schedule_next_run` touches only `run_at`. -/
theorem schedule_next_run_func (t : Task) (now : ℚ) :
    (t.schedule_next_run now).func = t.func := by
  unfold Task.schedule_next_run
  split <;> rfl

/-- Record update in `schedule_next_run` leaves `interval` unchanged. -/
theorem schedule_next_run_interval (t : Task) (now : ℚ) :
    (t.schedule_next_run now).interval = t.interval := by
  unfold Task.schedule_next_run
  split <;> rfl

/-- Claim C1: `schedule_task` raises exactly when `run_at <= now` and
`schedule_repeating_task` raises exactly when `interval <= 0`; in every
failing case the call returns synchronously with the task list (indeed the
whole scheduler state) unchanged, so the rejected task never appears in it. -/
theorem C1_registration_validation (s : TaskScheduler) (f : Nat) (r i now : ℚ) :
    ((s.schedule_task f r now).2.isSome ↔ r ≤ now)
    ∧ (r ≤ now → (s.schedule_task f r now).1 = s)
    ∧ ((s.schedule_repeating_task f i now).2.isSome ↔ i ≤ 0)
    ∧ (i ≤ 0 → (s.schedule_repeating_task f i now).1 = s) := by
  unfold TaskScheduler.schedule_task TaskScheduler.schedule_repeating_task
  refine ⟨?_, ?_, ?_, ?_⟩ <;> split <;> simp_all

/-- Claim C1, witness at a concrete rejected registration. -/
theorem C1_registration_validation_witness :
    ((TaskScheduler.init.schedule_task 0 0 0).2.isSome ↔ (0:ℚ) ≤ 0)
    ∧ ((0:ℚ) ≤ 0 → (TaskScheduler.init.schedule_task 0 0 0).1 = TaskScheduler.init)
    ∧ ((TaskScheduler.init.schedule_repeating_task 0 0 0).2.isSome ↔ (0:ℚ) ≤ 0)
    ∧ ((0:ℚ) ≤ 0 → (TaskScheduler.init.schedule_repeating_task 0 0 0).1
        = TaskScheduler.init) :=
  C1_registration_validation TaskScheduler.init 0 0 0 0

/-- Claim C2 counterexample: a repeating task whose previous due time is `0`
with period `1`, rescheduled by the loop at time `5`, gets next due time
`5 + 1 = 6` (current time plus period), not `0 + 1 = 1` (previous due time
plus period) as the claim states. -/
theorem C2_next_due_counterexample :
    (Task.schedule_next_run ⟨0, 0, some 1⟩ 5).run_at = 6 ∧ (6:ℚ) ≠ 0 + 1 := by
  constructor
  · unfold Task.schedule_next_run Task.is_repeating
    norm_num
  · norm_num

/-- Claim C2 amended: for every repeating task the loop reschedules, the next
due time is the current time at firing plus the period
(`run_at = time.time() + interval`), so a stalled loop does shift subsequent
due times forward. -/
theorem C2_next_due_from_current_time (t : Task) (i now : ℚ)
    (h : t.interval = some i) :
    (t.schedule_next_run now).run_at = now + i := by
  unfold Task.schedule_next_run Task.is_repeating
  rw [h]
  rfl

/-- Claim C2 amended, witness at a concrete repeating task. -/
theorem C2_next_due_from_current_time_witness :
    (Task.schedule_next_run ⟨0, 0, some 1⟩ 5).run_at = 5 + 1 :=
  C2_next_due_from_current_time ⟨0, 0, some 1⟩ 1 5 rfl

/-- Claim C3 counterexample: `stop` performs no join of the loop thread —
its effect trace on a concrete scheduler contains no `joinLoopThread` —
so it does not block until the loop thread has exited. -/
theorem C3_stop_counterexample :
    Effect.joinLoopThread ∉ (TaskScheduler.init.stop).2 := by
  decide

/-- Claim C3 amended: `stop` sets the `running` flag to false and returns
without joining the loop thread (no `joinLoopThread` effect); it is
idempotent on the scheduler state. -/
theorem C3_stop_no_join_idempotent (s : TaskScheduler) :
    (s.stop).1 = { s with running := false }
    ∧ Effect.joinLoopThread ∉ (s.stop).2
    ∧ ((s.stop).1.stop).1 = (s.stop).1 := by
  refine ⟨rfl, ?_, rfl⟩
  show Effect.joinLoopThread ∉
    [Effect.setRunning false, Effect.log "Task scheduler stopped"]
  decide

/-- Claim C4 counterexample: calling `start` on an already-running scheduler
is not a no-op — the state changes because an additional polling loop thread
is launched (`loopThreads` goes from 1 to 2). -/
theorem C4_start_counterexample :
    (TaskScheduler.start ⟨[], true, 1⟩).1 ≠ (⟨[], true, 1⟩ : TaskScheduler) := by
  decide

/-- Claim C4 amended: `start` unconditionally sets `running` to true and
launches a new polling loop thread on every call, even when the scheduler is
already running; it is not idempotent. -/
theorem C4_start_always_spawns (s : TaskScheduler) :
    (s.start).1 = { s with running := true, loopThreads := s.loopThreads + 1 }
    ∧ Effect.spawnLoopThread ∈ (s.start).2 := by
  refine ⟨rfl, ?_⟩
  show Effect.spawnLoopThread ∈
    [Effect.setRunning true, Effect.spawnLoopThread, Effect.log "Task scheduler started"]
  decide

/-- Claim C5: every one-shot task that fires on a tick (`run_at <= now`) is
removed from the task list afterwards; every repeating task that fires stays
in the list with its due time advanced, same callable and still repeating. -/
theorem C5_fired_task_disposition (tasks : List Task) (now : ℚ) (t : Task)
    (hmem : t ∈ tasks) (hdue : t.run_at ≤ now) :
    (t.is_repeating = false → t ∉ runTick tasks now)
    ∧ (t.is_repeating = true →
        t.schedule_next_run now ∈ runTick tasks now
        ∧ (t.schedule_next_run now).func = t.func
        ∧ (t.schedule_next_run now).is_repeating = true) := by
  constructor
  · intro hrep hcontra
    rw [runTick, List.mem_filterMap] at hcontra
    obtain ⟨a, _, hfa⟩ := hcontra
    by_cases hd : a.run_at ≤ now
    · rw [if_pos hd] at hfa
      by_cases hr : a.is_repeating = true
      · rw [if_pos hr] at hfa
        have heq : a.schedule_next_run now = t := Option.some.inj hfa
        have : t.is_repeating = true := by
          rw [← heq]
          unfold Task.is_repeating
          rw [schedule_next_run_interval]
          exact hr
        rw [hrep] at this
        exact Bool.false_ne_true this
      · rw [if_neg hr] at hfa
        exact Option.noConfusion hfa
    · rw [if_neg hd] at hfa
      have heq : a = t := Option.some.inj hfa
      rw [heq] at hd
      exact hd hdue
  · intro hrep
    refine ⟨?_, schedule_next_run_func t now, ?_⟩
    · rw [runTick, List.mem_filterMap]
      refine ⟨t, hmem, ?_⟩
      rw [if_pos hdue, if_pos hrep]
    · unfold Task.is_repeating
      rw [schedule_next_run_interval]
      exact hrep

/-- Claim C5, witness: a concrete due one-shot task on a concrete tick. -/
theorem C5_fired_task_disposition_witness :
    ((Task.mk 0 0 none).is_repeating = false →
      Task.mk 0 0 none ∉ runTick [Task.mk 0 0 none] 1)
    ∧ ((Task.mk 0 0 none).is_repeating = true →
        (Task.mk 0 0 none).schedule_next_run 1 ∈ runTick [Task.mk 0 0 none] 1
        ∧ ((Task.mk 0 0 none).schedule_next_run 1).func = (Task.mk 0 0 none).func
        ∧ ((Task.mk 0 0 none).schedule_next_run 1).is_repeating = true) :=
  C5_fired_task_disposition [Task.mk 0 0 none] 1 (Task.mk 0 0 none)
    (by decide) (by decide)

/-- Claim C6: an exception raised by a task's action is caught at the task
boundary and logged; the loop state after a tick (and hence the firing of
all other due tasks) is the same whatever the actions do, and each fired
task's action is run exactly once on the tick (no automatic retry). -/
theorem C6_action_errors_contained (s : TaskScheduler) (now : ℚ)
    (beh beh2 : Nat → Except String Unit) (t : Task) (e : String)
    (h : beh t.func = Except.error e) :
    (s.tick now beh).1 = (s.tick now beh2).1
    ∧ Task.run beh t = ["Error while running task: " ++ e]
    ∧ (s.tick now beh).2.length = (firedTasks s.tasks now).length := by
  refine ⟨rfl, ?_, ?_⟩
  · unfold Task.run
    rw [h]
  · unfold TaskScheduler.tick
    simp

/-- Claim C6, witness: a concrete always-raising action on a due task. -/
theorem C6_action_errors_contained_witness :
    (TaskScheduler.tick ⟨[Task.mk 0 0 none], true, 1⟩ 1
        (fun _ => Except.error "boom")).1
      = (TaskScheduler.tick ⟨[Task.mk 0 0 none], true, 1⟩ 1
          (fun _ => Except.ok ())).1
    ∧ Task.run (fun _ => Except.error "boom") (Task.mk 0 0 none)
      = ["Error while running task: " ++ "boom"]
    ∧ (TaskScheduler.tick ⟨[Task.mk 0 0 none], true, 1⟩ 1
        (fun _ => Except.error "boom")).2.length
      = (firedTasks [Task.mk 0 0 none] 1).length :=
  C6_action_errors_contained ⟨[Task.mk 0 0 none], true, 1⟩ 1
    (fun _ => Except.error "boom") (fun _ => Except.ok ())
    (Task.mk 0 0 none) "boom" rfl

/-- Claim C7: `cancel_task` removes the matching task record if present
(no record with the cancelled callable survives the call); it is a no-op
(and raises nothing — it is total) when no task record matches the
callable, e.g. an unknown callable or a one-shot whose record was already
removed after firing; every non-matching record survives, the surviving
records are a sublist of the originals (kept in order, none altered), and
the rest of the scheduler state is unchanged. -/
theorem C7_cancel_noop_and_preserves (s : TaskScheduler) (f : Nat) :
    (∀ t ∈ s.tasks, t.func = f → t ∉ (s.cancel_task f).tasks)
    ∧ ((∀ t ∈ s.tasks, t.func ≠ f) → s.cancel_task f = s)
    ∧ (∀ t ∈ s.tasks, t.func ≠ f → t ∈ (s.cancel_task f).tasks)
    ∧ (s.cancel_task f).tasks.Sublist s.tasks
    ∧ (s.cancel_task f).running = s.running
    ∧ (s.cancel_task f).loopThreads = s.loopThreads := by
  refine ⟨?_, ?_, ?_, List.filter_sublist _, rfl, rfl⟩
  · intro t _ hf hc
    unfold TaskScheduler.cancel_task at hc
    rw [List.mem_filter] at hc
    exact (by simpa using hc.2 : t.func ≠ f) hf
  · intro h
    unfold TaskScheduler.cancel_task
    have hf : s.tasks.filter (fun t => decide (t.func ≠ f)) = s.tasks :=
      List.filter_eq_self.mpr (fun t ht => by simpa using h t ht)
    rw [hf]
  · intro t ht hne
    unfold TaskScheduler.cancel_task
    simp only [List.mem_filter]
    exact ⟨ht, by simpa using hne⟩

/-- Claim C7, witness: cancelling callable 1 on a concrete state holding a
record for callable 1 (removed) and one for callable 0 (preserved). -/
theorem C7_cancel_noop_and_preserves_witness :
    (∀ t ∈ [Task.mk 0 1 none, Task.mk 1 2 (some 1)], t.func = 1 →
      t ∉ (TaskScheduler.cancel_task
        ⟨[Task.mk 0 1 none, Task.mk 1 2 (some 1)], false, 0⟩ 1).tasks)
    ∧ ((∀ t ∈ [Task.mk 0 1 none, Task.mk 1 2 (some 1)], t.func ≠ 1) →
        TaskScheduler.cancel_task
          ⟨[Task.mk 0 1 none, Task.mk 1 2 (some 1)], false, 0⟩ 1
          = (⟨[Task.mk 0 1 none, Task.mk 1 2 (some 1)], false, 0⟩ : TaskScheduler))
    ∧ (∀ t ∈ [Task.mk 0 1 none, Task.mk 1 2 (some 1)], t.func ≠ 1 →
        t ∈ (TaskScheduler.cancel_task
          ⟨[Task.mk 0 1 none, Task.mk 1 2 (some 1)], false, 0⟩ 1).tasks)
    ∧ (TaskScheduler.cancel_task
        ⟨[Task.mk 0 1 none, Task.mk 1 2 (some 1)], false, 0⟩ 1).tasks.Sublist
        [Task.mk 0 1 none, Task.mk 1 2 (some 1)]
    ∧ (TaskScheduler.cancel_task
        ⟨[Task.mk 0 1 none, Task.mk 1 2 (some 1)], false, 0⟩ 1).running = false
    ∧ (TaskScheduler.cancel_task
        ⟨[Task.mk 0 1 none, Task.mk 1 2 (some 1)], false, 0⟩ 1).loopThreads = 0 :=
  C7_cancel_noop_and_preserves ⟨[Task.mk 0 1 none, Task.mk 1 2 (some 1)], false, 0⟩ 1

/-- Claim C8: registering a repeating task with a positive period appends a
record whose first due time is `now + period`, marked recurring, and the
call reports no error. -/
theorem C8_repeating_registration (s : TaskScheduler) (f : Nat) (i now : ℚ)
    (h : 0 < i) :
    (s.schedule_repeating_task f i now).1.tasks
      = s.tasks ++ [Task.mk f (now + i) (some i)]
    ∧ (Task.mk f (now + i) (some i)).is_repeating = true
    ∧ (s.schedule_repeating_task f i now).2 = none := by
  have hni : ¬ i ≤ 0 := not_le.mpr h
  unfold TaskScheduler.schedule_repeating_task
  rw [if_neg hni]
  exact ⟨rfl, rfl, rfl⟩

/-- Claim C8, witness: a concrete repeating registration with period 1. -/
theorem C8_repeating_registration_witness :
    (TaskScheduler.init.schedule_repeating_task 0 1 0).1.tasks
      = TaskScheduler.init.tasks ++ [Task.mk 0 (0 + 1) (some 1)]
    ∧ (Task.mk 0 ((0:ℚ) + 1) (some 1)).is_repeating = true
    ∧ (TaskScheduler.init.schedule_repeating_task 0 1 0).2 = none :=
  C8_repeating_registration TaskScheduler.init 0 1 0 (by norm_num)

/-- Claim C9 counterexample: on a scheduler holding one task record,
`list_tasks` returns `None` (the Python body has no return statement), not a
snapshot sequence of the current task records as the claim states. -/
theorem C9_list_tasks_counterexample :
    (TaskScheduler.list_tasks ⟨[Task.mk 0 1 none], false, 0⟩).2.1 = none
    ∧ (TaskScheduler.list_tasks ⟨[Task.mk 0 1 none], false, 0⟩).2.1
        ≠ some [Task.mk 0 1 none] := by
  refine ⟨rfl, ?_⟩
  simp [TaskScheduler.list_tasks]

/-- Claim C9 amended: `list_tasks` logs one line per current task record
(its due time and recurring flag), returns `None` rather than a sequence of
records, and does not modify the scheduler's state. -/
theorem C9_list_tasks_logs_only (s : TaskScheduler) :
    (s.list_tasks).1 = s
    ∧ (s.list_tasks).2.1 = none
    ∧ (s.list_tasks).2.2.length = s.tasks.length := by
  refine ⟨rfl, rfl, ?_⟩
  unfold TaskScheduler.list_tasks
  simp

/-- Claim C10: cancellation is keyed on the callable: after
`cancel_task f` no record with callable `f` remains (all registrations of
`f`, one-shot or repeating, are removed at once), and every record with a
different callable survives. -/
theorem C10_cancel_removes_all_matching (s : TaskScheduler) (f : Nat) :
    (∀ t ∈ (s.cancel_task f).tasks, t.func ≠ f)
    ∧ (∀ t : Task, t.func = f → t ∉ (s.cancel_task f).tasks)
    ∧ (∀ t ∈ s.tasks, t.func ≠ f → t ∈ (s.cancel_task f).tasks) := by
  refine ⟨?_, ?_, ?_⟩
  · intro t ht
    unfold TaskScheduler.cancel_task at ht
    rw [List.mem_filter] at ht
    simpa using ht.2
  · intro t hf hc
    unfold TaskScheduler.cancel_task at hc
    rw [List.mem_filter] at hc
    exact (by simpa using hc.2 : t.func ≠ f) hf
  · intro t ht hne
    unfold TaskScheduler.cancel_task
    rw [List.mem_filter]
    exact ⟨ht, by simpa using hne⟩

end TaskSchedulerPy
